import Mathlib

/-!
Shallow embedding of `src/helpers/InitHelper.ts` from the OneSignal-Website-SDK
repository: the session/subscription initialization controller.

JavaScript values relevant to the control flow (strings, booleans, null,
undefined) are embedded as `JVal`, with JavaScript truthiness as `truthy`.
Effectful functions (`sessionInit`, `internalInit`, `saveInitOptions`) are
embedded as pure functions producing the ordered list of side effects (`Eff`)
issued during their synchronous run, together with the resulting mutable SDK
state where relevant.  Asynchronous continuations (promise callbacks) are
embedded as separate named functions where a claim needs them.
-/

namespace OneSignalSDK

/-- A JavaScript value as far as the InitHelper control flow inspects it:
a string, a boolean, `null`, or `undefined`. -/
inductive JVal where
  | jstr : String → JVal
  | jbool : Bool → JVal
  | jnull : JVal
  | jundef : JVal
deriving DecidableEq, Repr

/-- JavaScript truthiness of a `JVal` (empty string, `false`, `null` and
`undefined` are falsy). -/
def truthy : JVal → Bool
  | JVal.jstr s => s ≠ ""
  | JVal.jbool b => b
  | JVal.jnull => false
  | JVal.jundef => false

/-- Truthiness of an object property that may be absent (`none` = key absent,
which in JavaScript reads as `undefined`, hence falsy). -/
def truthyOpt : Option JVal → Bool
  | some v => truthy v
  | none => false

/-- Embed an optional string (a possibly-undefined string-typed field) as a
`JVal`. -/
def jvalOfStrOpt : Option String → JVal
  | some s => JVal.jstr s
  | none => JVal.jundef

/-- Embed an optional boolean field as a `JVal`. -/
def jvalOfBoolOpt : Option Bool → JVal
  | some b => JVal.jbool b
  | none => JVal.jundef

/-! ## Legacy config merger (`getMergedLegacyConfig`, InitHelper.ts lines 353-379) -/

/-- The server-provided `AppConfig` fields read by `getMergedLegacyConfig`. -/
structure AppConfig where
  subdomain : Option String
  safariWebId : Option String
  cookieSyncEnabled : Option Bool
deriving DecidableEq, Repr

/-- The caller-supplied `userConfig` fields that interact with the merge
layers; `none` means the key is absent from the object. -/
structure UserConfig where
  path : Option JVal
  subdomainName : Option JVal
  safari_web_id : Option JVal
  cookieSyncEnabled : Option JVal
deriving DecidableEq, Repr

/-- The merged result object.  After `objectAssign` every tracked key is
present (possibly holding `undefined`); `subdomainName` is `Option` because
the final step may `delete` it. -/
structure MergedConfig where
  path : JVal
  subdomainName : Option JVal
  safari_web_id : JVal
  cookieSyncEnabled : JVal
deriving DecidableEq, Repr

/-- `InitHelper.getMergedLegacyConfig`: layered `objectAssign` of
defaults, server-provided subdomain / safari id / cookie-sync flag, and the
caller config (later layers win per present key), followed by the
suppression rule: when `userConfig.subdomainName` is falsy or absent, the
`subdomainName` key is deleted from the result. -/
def getMergedLegacyConfig (userConfig : UserConfig) (serverConfig : AppConfig) :
    MergedConfig :=
  let finalConfig : MergedConfig :=
    { path := userConfig.path.getD (JVal.jstr "/")
      subdomainName :=
        some (userConfig.subdomainName.getD (jvalOfStrOpt serverConfig.subdomain))
      safari_web_id :=
        userConfig.safari_web_id.getD (jvalOfStrOpt serverConfig.safariWebId)
      cookieSyncEnabled :=
        userConfig.cookieSyncEnabled.getD (jvalOfBoolOpt serverConfig.cookieSyncEnabled) }
  if truthyOpt userConfig.subdomainName then finalConfig
  else { finalConfig with subdomainName := none }

/-! ## Option save (`saveInitOptions`, InitHelper.ts lines 149-199) -/

/-- The `OneSignal.config.webhooks` object fields read by `saveInitOptions`. -/
structure WebhookConfig where
  displayed : JVal
  clicked : JVal
  dismissed : JVal
  cors : JVal
deriving DecidableEq, Repr

/-- Property lookup `webhookOptions[event]` for the three event keys the
source iterates over. -/
def webhookGet (w : WebhookConfig) : String → JVal
  | "notification.displayed" => w.displayed
  | "notification.clicked" => w.clicked
  | "notification.dismissed" => w.dismissed
  | _ => JVal.jundef

/-- The `OneSignal.config` fields read by `saveInitOptions`; `webhooks` is
`none` when `OneSignal.config.webhooks` is falsy/absent. -/
structure SdkConfig where
  persistNotification : JVal
  webhooks : Option WebhookConfig
  notificationClickHandlerMatch : JVal
  notificationClickHandlerAction : JVal
  serviceWorkerRefetchRequests : JVal
deriving DecidableEq, Repr

/-- One `Database.put('Options', ...)` record. -/
structure DbPut where
  key : String
  value : JVal
deriving DecidableEq, Repr

/-- The persisted value for one webhook event key: the configured value when
`webhookOptions && webhookOptions[event]` is truthy, else `false`. -/
def webhookValue (webhooks : Option WebhookConfig) (event : String) : JVal :=
  match webhooks with
  | some w => if truthy (webhookGet w event) then webhookGet w event else JVal.jbool false
  | none => JVal.jbool false

/-- `InitHelper.saveInitOptions`: the ordered batch of option writes issued,
translated clause by clause from the source. -/
def saveInitOptions (c : SdkConfig) : List DbPut :=
  [ { key := "persistNotification"
      value :=
        if c.persistNotification = JVal.jbool false then JVal.jbool false
        else if c.persistNotification = JVal.jbool true then JVal.jstr "force"
        else JVal.jbool true } ] ++
  (["notification.displayed", "notification.clicked", "notification.dismissed"].map
    (fun event => { key := "webhooks." ++ event, value := webhookValue c.webhooks event })) ++
  [ { key := "webhooks.cors"
      value := JVal.jbool (match c.webhooks with
        | some w => truthy w.cors
        | none => false) }
  , { key := "notificationClickHandlerMatch"
      value :=
        if truthy c.notificationClickHandlerMatch then c.notificationClickHandlerMatch
        else JVal.jstr "exact" }
  , { key := "notificationClickHandlerAction"
      value :=
        if truthy c.notificationClickHandlerAction then c.notificationClickHandlerAction
        else JVal.jstr "navigate" }
  , { key := "serviceWorkerRefetchRequests"
      value :=
        if c.serviceWorkerRefetchRequests = JVal.jbool false then JVal.jbool false
        else JVal.jbool true } ]

/-- The value persisted for `key` by a batch of writes (first write wins for
lookup purposes; `saveInitOptions` writes each key once). -/
def persistedValue (c : SdkConfig) (key : String) : Option JVal :=
  ((saveInitOptions c).find? (fun p => p.key == key)).map (fun p => p.value)

/-! ## Effect traces for `sessionInit` and `internalInit` -/

/-- One observable side effect issued by the initialization controller, in
program order.  Queries started inside a promise chain record only the call
that is issued synchronously; promise callbacks are modelled separately. -/
inductive Eff where
  | logDebug : String → Eff
  | logInfo : String → Eff
  | dbGet : String → String → Eff
  | dbPutOption : DbPut → Eff
  | eventTrigger : String → Eff
  | sessionStorageSet : String → String → Eff
  | getAppId : Eff
  | isPushEnabledQuery : Eff
  | getNotificationPermissionQuery : Eff
  | permissionRequest : Eff
  | registerForW3CPush : Eff
  | showHttpPrompt : Eff
  | updateServiceWorker : Eff
  | registerVisibilityListener : Eff
  | sessionInitInvoke : Eff
deriving DecidableEq, Repr

/-- Number of occurrences of effect `e` in a trace. -/
def countEff (e : Eff) : List Eff → Nat
  | [] => 0
  | x :: xs => (if x = e then 1 else 0) + countEff e xs

/-- An effect that is only a log write (not an observable side effect in the
sense of persisted writes, UI invocations or triggered events). -/
def isLogEff : Eff → Bool
  | Eff.logDebug _ => true
  | Eff.logInfo _ => true
  | _ => false

/-- The mutable SDK state touched by `sessionInit`: the session-wide
`OneSignal._sessionInitAlreadyRunning` latch. -/
structure SdkState where
  sessionInitAlreadyRunning : Bool
deriving DecidableEq, Repr

/-- The `options` argument of `sessionInit` as inspected by its branches. -/
structure InitOptions where
  sdkCall : Bool
  modalPrompt : Bool
  fromRegisterFor : Bool
deriving DecidableEq, Repr

/-- The read-only environment `sessionInit` consults: browser identity,
configuration, and prompt/session history. -/
structure SessionEnv where
  browserSafari : Bool
  safariWebId : JVal
  serviceWorkerAvailable : Bool
  usingSubscriptionWorkaround : Bool
  httpsNativePromptDismissed : Bool
  autoRegister : JVal
  httpPromptAlreadyShown : Bool
deriving DecidableEq, Repr

/-- The branch dispatch of `sessionInit` (InitHelper.ts lines 274-348), run
after the re-entrancy latch has been set.  Returns the updated state and the
synchronous effects of the selected branch. -/
def sessionInitDispatch (opts : InitOptions) (env : SessionEnv) (s : SdkState) :
    SdkState × List Eff :=
  if env.browserSafari then
    if truthy env.safariWebId then
      (s, [Eff.getAppId])
    else
      (s, [])
  else if opts.modalPrompt && opts.fromRegisterFor then
    (s, [Eff.getAppId, Eff.isPushEnabledQuery, Eff.getNotificationPermissionQuery])
  else if env.serviceWorkerAvailable && !env.usingSubscriptionWorkaround then
    if opts.sdkCall && !env.httpsNativePromptDismissed then
      (s, [Eff.eventTrigger ("PERMISSION_PROMPT_DISPLAYED"), Eff.permissionRequest])
    else if opts.sdkCall && env.httpsNativePromptDismissed then
      ({ s with sessionInitAlreadyRunning := false },
       [Eff.logDebug ("not showing native HTTPS prompt, previously dismissed")])
    else
      (s, [Eff.registerForW3CPush])
  else
    (s,
      (if !(env.autoRegister = JVal.jbool true) then
        [Eff.logDebug ("not showing popover, autoRegister not specifically true")]
      else []) ++
      (if env.httpPromptAlreadyShown then
        [Eff.logDebug ("not showing popover, previously shown this session")]
      else []) ++
      (if env.autoRegister = JVal.jbool true && !env.httpPromptAlreadyShown then
        [Eff.showHttpPrompt]
      else []))

/-- `InitHelper.sessionInit` (InitHelper.ts lines 263-351): log entry, check
the re-entrancy latch (silent return when set), otherwise set the latch, run
the branch dispatch, and unconditionally trigger `SDK_INITIALIZED`. -/
def sessionInit (opts : InitOptions) (env : SessionEnv) (s : SdkState) :
    SdkState × List Eff :=
  if s.sessionInitAlreadyRunning then
    (s, [Eff.logDebug ("called sessionInit"),
         Eff.logDebug ("returning from sessionInit, already called")])
  else
    let r := sessionInitDispatch opts env { s with sessionInitAlreadyRunning := true }
    (r.1, Eff.logDebug ("called sessionInit") ::
          (r.2 ++ [Eff.eventTrigger ("SDK_INITIALIZED")]))

/-! ## Session guard (`internalInit`, InitHelper.ts lines 201-252) -/

/-- Truthiness of a `sessionStorage.getItem` result (`null` when missing;
the empty string is falsy). -/
def strTruthy : Option String → Bool
  | some s => s ≠ ""
  | none => false

/-- JavaScript loose equality `getItem(...) == permissionString` between a
possibly-`null` string and a string (`null == string` is false). -/
def looseEq : Option String → String → Bool
  | some s, p => s == p
  | none, _ => false

/-- The read-only environment `internalInit` consults. -/
structure GuardEnv where
  sessionMarker : Option String
  lastPermission : Option String
  permission : String
  subdomainName : JVal
  browserSafari : Bool
  autoRegister : JVal
  usingSubscriptionWorkaround : Bool
  isPushEnabled : Bool
  documentVisible : Bool
deriving DecidableEq, Repr

/-- The guard condition of InitHelper.ts lines 206-209: session marker set,
no subdomain configured, and permission denied or unchanged since last
observed. -/
def sessionShortCircuit (env : GuardEnv) : Bool :=
  strTruthy env.sessionMarker && !truthy env.subdomainName &&
    (env.permission == "denied" || looseEq env.lastPermission env.permission)

/-- `InitHelper.internalInit`: the ordered effects of one guard run,
translated clause by clause from the source.  `sessionInitInvoke` marks the
hand-off to `sessionInit`; `registerVisibilityListener` marks the deferred
one-shot visibility wait. -/
def internalInit (env : GuardEnv) : List Eff :=
  [Eff.logDebug ("called internalInit"), Eff.dbGet ("Ids") ("appId")] ++
  if sessionShortCircuit env then
    [Eff.eventTrigger ("SDK_INITIALIZED")]
  else
    [Eff.sessionStorageSet ("ONE_SIGNAL_NOTIFICATION_PERMISSION") env.permission] ++
    if env.browserSafari && env.autoRegister = JVal.jbool false then
      [Eff.logDebug ("on Safari and autoregister is false, skipping sessionInit")] ++
      (if !env.usingSubscriptionWorkaround then
        [Eff.eventTrigger ("SDK_INITIALIZED")]
      else [])
    else if env.autoRegister = JVal.jbool false && !truthy env.subdomainName then
      [Eff.logDebug ("skipping internal init, not auto-registering and no subdomain"),
       Eff.eventTrigger ("SDK_INITIALIZED"), Eff.isPushEnabledQuery] ++
      (if env.isPushEnabled && !env.usingSubscriptionWorkaround then
        [Eff.logInfo ("re-registering GCM token of already-subscribed user"),
         Eff.registerForW3CPush]
      else
        [Eff.updateServiceWorker])
    else if !env.documentVisible then
      [Eff.registerVisibilityListener]
    else
      [Eff.sessionInitInvoke]

/-! ## HTTP popover error handling (`sessionInit` catch handler, lines 339-346) -/

/-- The error thrown by the popover `show()` promise, as discriminated by the
catch handler: an `InvalidStateError` carries its `reason` string. -/
inductive PromptError where
  | invalidState : String → PromptError
  | permissionMessageDismissed : PromptError
  | alreadySubscribed : PromptError
  | serviceUnavailable : String → PromptError
  | other : String → PromptError
deriving DecidableEq, Repr

/-- The catch handler attached to `OneSignal.showHttpPrompt()`: `true` means
the error is logged and swallowed, `false` means it is re-thrown.  Swallowed:
an `InvalidStateError` whose reason is `RedundantPermissionMessage`, a
`PermissionMessageDismissedError`, or an `AlreadySubscribedError`. -/
def httpPromptCatchSwallows : PromptError → Bool
  | PromptError.invalidState r => r == "RedundantPermissionMessage"
  | PromptError.permissionMessageDismissed => true
  | PromptError.alreadySubscribed => true
  | PromptError.serviceUnavailable _ => false
  | PromptError.other _ => false

/-! ## Sample concrete inputs used by witnesses and counterexamples -/

/-- A caller config with no keys supplied. -/
def userConfigA : UserConfig :=
  { path := none, subdomainName := none, safari_web_id := none, cookieSyncEnabled := none }

/-- A server config with a dashboard-assigned subdomain. -/
def appConfigA : AppConfig :=
  { subdomain := some "foo", safariWebId := none, cookieSyncEnabled := none }

/-- An SDK config with every key left unset. -/
def sdkConfigA : SdkConfig :=
  { persistNotification := JVal.jundef, webhooks := none
    notificationClickHandlerMatch := JVal.jundef
    notificationClickHandlerAction := JVal.jundef
    serviceWorkerRefetchRequests := JVal.jundef }

/-- A webhooks object whose `notification.displayed` URL is the empty string. -/
def webhooksEmptyUrl : WebhookConfig :=
  { displayed := JVal.jstr "", clicked := JVal.jundef
    dismissed := JVal.jundef, cors := JVal.jundef }

/-! ## Lookup lemmas for `saveInitOptions` -/

/-- The batch always carries exactly one `persistNotification` write, with the
translated value. -/
theorem persisted_persistNotification (c : SdkConfig) :
    persistedValue c ("persistNotification") =
      some (if c.persistNotification = JVal.jbool false then JVal.jbool false
            else if c.persistNotification = JVal.jbool true then JVal.jstr "force"
            else JVal.jbool true) := rfl

/-- The persisted `webhooks.notification.displayed` value is the webhook
translation of the configured webhooks object. -/
theorem persisted_webhook_displayed (c : SdkConfig) :
    persistedValue c ("webhooks.notification.displayed") =
      some (webhookValue c.webhooks ("notification.displayed")) := rfl

/-- The persisted `webhooks.notification.clicked` value is the webhook
translation of the configured webhooks object. -/
theorem persisted_webhook_clicked (c : SdkConfig) :
    persistedValue c ("webhooks.notification.clicked") =
      some (webhookValue c.webhooks ("notification.clicked")) := rfl

/-- The persisted `webhooks.notification.dismissed` value is the webhook
translation of the configured webhooks object. -/
theorem persisted_webhook_dismissed (c : SdkConfig) :
    persistedValue c ("webhooks.notification.dismissed") =
      some (webhookValue c.webhooks ("notification.dismissed")) := rfl

/-! ## Claim C4 -/

/-- C4: for any server config with `subdomain = "foo"` and any caller config
lacking a `subdomainName` key, the merged result carries no `subdomainName`
key; for any caller config with `subdomainName = "bar"`, the merged result's
`subdomainName` is `"bar"` regardless of the server value. -/
theorem merged_config_subdomain_rules (u : UserConfig) (srv : AppConfig) :
    (getMergedLegacyConfig { u with subdomainName := none }
        { srv with subdomain := some "foo" }).subdomainName = none ∧
    (getMergedLegacyConfig { u with subdomainName := some (JVal.jstr "bar") }
        srv).subdomainName = some (JVal.jstr "bar") := by
  constructor <;> simp [getMergedLegacyConfig, truthyOpt, truthy]

/-! ## Claim C10 -/

/-- C10: `getMergedLegacyConfig` deletes the `subdomainName` key whenever the
caller-supplied `subdomainName` value is falsy (empty string, `false`,
`null`, `undefined`), not only when the key is absent. -/
theorem merged_config_drops_falsy_subdomain (u : UserConfig) (srv : AppConfig)
    (v : JVal) (h : truthy v = false) :
    (getMergedLegacyConfig { u with subdomainName := some v } srv).subdomainName
      = none := by
  simp [getMergedLegacyConfig, truthyOpt, h]

/-- C10 witness: an explicitly supplied empty-string subdomain is dropped. -/
theorem merged_config_drops_falsy_subdomain_witness :
    truthy (JVal.jstr "") = false ∧
    (getMergedLegacyConfig { userConfigA with subdomainName := some (JVal.jstr "") }
        appConfigA).subdomainName = none :=
  ⟨by decide,
   merged_config_drops_falsy_subdomain userConfigA appConfigA (JVal.jstr "") (by decide)⟩

/-! ## Claim C5 -/

/-- C5: `saveInitOptions` persists `persistNotification` as `true` when the
config key is unset, `false` when explicitly `false`, and the sentinel
`"force"` when explicitly `true`. -/
theorem saveInitOptions_persistNotification (c : SdkConfig) :
    persistedValue { c with persistNotification := JVal.jundef }
        ("persistNotification") = some (JVal.jbool true) ∧
    persistedValue { c with persistNotification := JVal.jbool false }
        ("persistNotification") = some (JVal.jbool false) ∧
    persistedValue { c with persistNotification := JVal.jbool true }
        ("persistNotification") = some (JVal.jstr "force") := by
  refine ⟨?_, ?_, ?_⟩ <;> rfl

/-! ## Claim C6 -/

/-- C6 counterexample: a webhooks object that is present but maps
`notification.displayed` to the empty-string URL is persisted as `false`,
not as the configured URL. -/
theorem webhook_empty_url_counterexample :
    persistedValue { sdkConfigA with webhooks := some webhooksEmptyUrl }
        ("webhooks.notification.displayed") = some (JVal.jbool false) ∧
    ¬ persistedValue { sdkConfigA with webhooks := some webhooksEmptyUrl }
        ("webhooks.notification.displayed") = some (JVal.jstr "") := by
  refine ⟨rfl, ?_⟩
  decide

/-- C6 amended: for each webhook event in {displayed, clicked, dismissed},
the persisted value is `false` when the webhooks object is absent or the
event's value is falsy, and equals the configured URL when the URL is a
non-empty (truthy) string. -/
theorem saveInitOptions_webhooks (c : SdkConfig) (w : WebhookConfig)
    (u : String) (hu : u ≠ "") :
    (persistedValue { c with webhooks := none }
        ("webhooks.notification.displayed") = some (JVal.jbool false) ∧
     persistedValue { c with webhooks := none }
        ("webhooks.notification.clicked") = some (JVal.jbool false) ∧
     persistedValue { c with webhooks := none }
        ("webhooks.notification.dismissed") = some (JVal.jbool false)) ∧
    (persistedValue { c with webhooks := some { w with displayed := JVal.jstr u } }
        ("webhooks.notification.displayed") = some (JVal.jstr u) ∧
     persistedValue { c with webhooks := some { w with clicked := JVal.jstr u } }
        ("webhooks.notification.clicked") = some (JVal.jstr u) ∧
     persistedValue { c with webhooks := some { w with dismissed := JVal.jstr u } }
        ("webhooks.notification.dismissed") = some (JVal.jstr u)) ∧
    (∀ v : JVal, truthy v = false →
      persistedValue { c with webhooks := some { w with displayed := v } }
          ("webhooks.notification.displayed") = some (JVal.jbool false) ∧
      persistedValue { c with webhooks := some { w with clicked := v } }
          ("webhooks.notification.clicked") = some (JVal.jbool false) ∧
      persistedValue { c with webhooks := some { w with dismissed := v } }
          ("webhooks.notification.dismissed") = some (JVal.jbool false)) := by
  refine ⟨⟨rfl, rfl, rfl⟩, ⟨?_, ?_, ?_⟩, ?_⟩
  · rw [persisted_webhook_displayed]
    simp [webhookValue, webhookGet, truthy, hu]
  · rw [persisted_webhook_clicked]
    simp [webhookValue, webhookGet, truthy, hu]
  · rw [persisted_webhook_dismissed]
    simp [webhookValue, webhookGet, truthy, hu]
  · intro v hv
    refine ⟨?_, ?_, ?_⟩
    · rw [persisted_webhook_displayed]
      simp [webhookValue, webhookGet, hv]
    · rw [persisted_webhook_clicked]
      simp [webhookValue, webhookGet, hv]
    · rw [persisted_webhook_dismissed]
      simp [webhookValue, webhookGet, hv]

/-- C6 amended witness: a configured non-empty URL is persisted verbatim. -/
theorem saveInitOptions_webhooks_witness :
    ("https://example.com/hook" : String) ≠ "" ∧
    persistedValue { sdkConfigA with
        webhooks := some { webhooksEmptyUrl with
          displayed := JVal.jstr "https://example.com/hook" } }
      ("webhooks.notification.displayed")
      = some (JVal.jstr "https://example.com/hook") :=
  ⟨by decide,
   (saveInitOptions_webhooks sdkConfigA webhooksEmptyUrl
      ("https://example.com/hook") (by decide)).2.1.1⟩

/-! ## Trace helper lemmas -/

theorem countEff_append (e : Eff) (xs ys : List Eff) :
    countEff e (xs ++ ys) = countEff e xs + countEff e ys := by
  induction xs with
  | nil => simp [countEff]
  | cons x xs ih => simp [countEff, ih, Nat.add_assoc]

/-- No branch of the dispatch emits the terminal event itself: the single
emission of `sessionInit` is its unconditional trailing trigger. -/
theorem sessionInitDispatch_no_terminal (opts : InitOptions) (env : SessionEnv)
    (s : SdkState) :
    countEff (Eff.eventTrigger ("SDK_INITIALIZED"))
      (sessionInitDispatch opts env s).2 = 0 := by
  unfold sessionInitDispatch
  repeat' split
  all_goals try simp [countEff, countEff_append]

/-! ## More sample concrete inputs -/

/-- `sessionInit` options for a caller-requested modal prompt. -/
def optsModal : InitOptions :=
  { sdkCall := false, modalPrompt := true, fromRegisterFor := true }

/-- `sessionInit` options for an SDK-internal call. -/
def optsSdk : InitOptions :=
  { sdkCall := true, modalPrompt := false, fromRegisterFor := false }

/-- A non-Safari HTTPS environment. -/
def envHttps : SessionEnv :=
  { browserSafari := false, safariWebId := JVal.jundef
    serviceWorkerAvailable := true, usingSubscriptionWorkaround := false
    httpsNativePromptDismissed := false, autoRegister := JVal.jundef
    httpPromptAlreadyShown := false }

/-- An HTTP-workaround environment with auto-registration explicitly on. -/
def envHttp : SessionEnv :=
  { browserSafari := false, safariWebId := JVal.jundef
    serviceWorkerAvailable := false, usingSubscriptionWorkaround := true
    httpsNativePromptDismissed := false, autoRegister := JVal.jbool true
    httpPromptAlreadyShown := false }

/-- A Safari environment with no `safari_web_id` configured. -/
def envSafariNoId : SessionEnv :=
  { browserSafari := true, safariWebId := JVal.jundef
    serviceWorkerAvailable := false, usingSubscriptionWorkaround := false
    httpsNativePromptDismissed := false, autoRegister := JVal.jundef
    httpPromptAlreadyShown := false }

/-- A guard environment satisfying the session short-circuit with permission
denied. -/
def guardEnvA : GuardEnv :=
  { sessionMarker := some "1", lastPermission := none, permission := "denied"
    subdomainName := JVal.jundef, browserSafari := false
    autoRegister := JVal.jundef, usingSubscriptionWorkaround := false
    isPushEnabled := false, documentVisible := true }

/-- A guard environment reaching the auto-registration-off branch with an
already-subscribed user. -/
def guardEnvB : GuardEnv :=
  { sessionMarker := none, lastPermission := none, permission := "default"
    subdomainName := JVal.jundef, browserSafari := false
    autoRegister := JVal.jbool false, usingSubscriptionWorkaround := false
    isPushEnabled := true, documentVisible := true }

/-! ## Claim C1 -/

/-- C1 counterexample: on the modal-prompt branch (modal requested, from a
registration call, non-Safari), `sessionInit` itself does emit the terminal
`SDK_INITIALIZED` event — its trailing trigger is unconditional — so the
branch is not an exception. -/
theorem sessionInit_modal_branch_emits_terminal :
    countEff (Eff.eventTrigger ("SDK_INITIALIZED"))
      (sessionInit optsModal envHttps { sessionInitAlreadyRunning := false }).2 = 1 ∧
    Eff.eventTrigger ("SDK_INITIALIZED") ∈
      (sessionInit optsModal envHttps { sessionInitAlreadyRunning := false }).2 := by
  refine ⟨rfl, ?_⟩
  decide

/-- C1 amended: every invocation of `sessionInit` that passes the
re-entrancy latch emits the terminal `SDK_INITIALIZED` event exactly once,
on every branch — including the modal-prompt branch. -/
theorem sessionInit_terminal_exactly_once (opts : InitOptions) (env : SessionEnv)
    (s : SdkState) (h : s.sessionInitAlreadyRunning = false) :
    countEff (Eff.eventTrigger ("SDK_INITIALIZED"))
      (sessionInit opts env s).2 = 1 := by
  simp [sessionInit, h, countEff, countEff_append, sessionInitDispatch_no_terminal]

/-- C1 witness: a concrete latch-free HTTPS invocation emits the terminal
event exactly once. -/
theorem sessionInit_terminal_exactly_once_witness :
    ({ sessionInitAlreadyRunning := false } : SdkState).sessionInitAlreadyRunning
      = false ∧
    countEff (Eff.eventTrigger ("SDK_INITIALIZED"))
      (sessionInit optsSdk envHttps { sessionInitAlreadyRunning := false }).2 = 1 :=
  ⟨rfl, sessionInit_terminal_exactly_once optsSdk envHttps
          { sessionInitAlreadyRunning := false } rfl⟩

/-! ## Claim C2 -/

/-- C2: when the `_sessionInitAlreadyRunning` latch is already set,
`sessionInit` returns at once with the state unchanged and only log output
(no persisted writes, UI invocations, or triggered events); and when the
latch is clear, it is set synchronously at entry, so the branch dispatch
(and every asynchronous step it starts) already observes the latch set. -/
theorem sessionInit_latch_contract (opts : InitOptions) (env : SessionEnv)
    (s : SdkState) :
    (s.sessionInitAlreadyRunning = true →
      (sessionInit opts env s).1 = s ∧
      ∀ e ∈ (sessionInit opts env s).2, isLogEff e = true) ∧
    (s.sessionInitAlreadyRunning = false →
      sessionInit opts env s =
        ((sessionInitDispatch opts env { sessionInitAlreadyRunning := true }).1,
         Eff.logDebug ("called sessionInit") ::
           ((sessionInitDispatch opts env { sessionInitAlreadyRunning := true }).2 ++
            [Eff.eventTrigger ("SDK_INITIALIZED")]))) := by
  obtain ⟨b⟩ := s
  constructor
  · intro h
    simp only at h
    subst h
    refine ⟨rfl, ?_⟩
    intro e he
    simp [sessionInit] at he
    rcases he with h1 | h1 <;> simp [h1, isLogEff]
  · intro h
    simp only at h
    subst h
    rfl

/-- C2 witness: a concrete second call under a set latch leaves the state
unchanged and produces only log effects. -/
theorem sessionInit_latch_contract_witness :
    (sessionInit optsSdk envHttps { sessionInitAlreadyRunning := true }).1 =
      { sessionInitAlreadyRunning := true } ∧
    ∀ e ∈ (sessionInit optsSdk envHttps { sessionInitAlreadyRunning := true }).2,
      isLogEff e = true :=
  (sessionInit_latch_contract optsSdk envHttps
    { sessionInitAlreadyRunning := true }).1 rfl

/-! ## Claim C3 -/

/-- C3: when the session marker is set, no subdomain is configured, and the
permission is denied or equals the last-observed permission, `internalInit`
emits exactly the terminal event after its initial appId read: no
subscription flow, no visibility wait, and no new last-observed permission
write. -/
theorem internalInit_session_guard (env : GuardEnv)
    (h1 : strTruthy env.sessionMarker = true)
    (h2 : truthy env.subdomainName = false)
    (h3 : env.permission = "denied" ∨ looseEq env.lastPermission env.permission = true) :
    internalInit env =
      [Eff.logDebug ("called internalInit"), Eff.dbGet ("Ids") ("appId"),
       Eff.eventTrigger ("SDK_INITIALIZED")] := by
  have hsc : sessionShortCircuit env = true := by
    rcases h3 with h3 | h3 <;> simp [sessionShortCircuit, h1, h2, h3]
  simp [internalInit, hsc]

/-- C3 witness: a concrete denied-permission repeat visit short-circuits to
the terminal event alone. -/
theorem internalInit_session_guard_witness :
    strTruthy guardEnvA.sessionMarker = true ∧
    truthy guardEnvA.subdomainName = false ∧
    guardEnvA.permission = "denied" ∧
    internalInit guardEnvA =
      [Eff.logDebug ("called internalInit"), Eff.dbGet ("Ids") ("appId"),
       Eff.eventTrigger ("SDK_INITIALIZED")] :=
  ⟨by decide, by decide, rfl,
   internalInit_session_guard guardEnvA (by decide) (by decide) (Or.inl rfl)⟩

/-! ## Claim C7 -/

/-- C7: on the guard branch where auto-registration is explicitly disabled
and no subdomain is configured (and no earlier guard rule intercepted:
session short-circuit false, not Safari), the terminal event is emitted
before the asynchronous follow-up starts, and the follow-up re-registers for
W3C push when the user is subscribed and not on the workaround path, else
triggers a service-worker update check. -/
theorem internalInit_autoregister_off (env : GuardEnv)
    (h1 : sessionShortCircuit env = false)
    (h2 : env.browserSafari = false)
    (h3 : env.autoRegister = JVal.jbool false)
    (h4 : truthy env.subdomainName = false) :
    internalInit env =
      [Eff.logDebug ("called internalInit"), Eff.dbGet ("Ids") ("appId"),
       Eff.sessionStorageSet ("ONE_SIGNAL_NOTIFICATION_PERMISSION") env.permission,
       Eff.logDebug ("skipping internal init, not auto-registering and no subdomain"),
       Eff.eventTrigger ("SDK_INITIALIZED"), Eff.isPushEnabledQuery] ++
      (if env.isPushEnabled && !env.usingSubscriptionWorkaround then
        [Eff.logInfo ("re-registering GCM token of already-subscribed user"),
         Eff.registerForW3CPush]
      else
        [Eff.updateServiceWorker]) := by
  simp [internalInit, h1, h2, h3, h4]

/-- C7 witness: a concrete subscribed non-workaround user gets the terminal
event and then the re-registration follow-up. -/
theorem internalInit_autoregister_off_witness :
    sessionShortCircuit guardEnvB = false ∧
    internalInit guardEnvB =
      [Eff.logDebug ("called internalInit"), Eff.dbGet ("Ids") ("appId"),
       Eff.sessionStorageSet ("ONE_SIGNAL_NOTIFICATION_PERMISSION") ("default"),
       Eff.logDebug ("skipping internal init, not auto-registering and no subdomain"),
       Eff.eventTrigger ("SDK_INITIALIZED"), Eff.isPushEnabledQuery,
       Eff.logInfo ("re-registering GCM token of already-subscribed user"),
       Eff.registerForW3CPush] := by
  refine ⟨by decide, ?_⟩
  rw [internalInit_autoregister_off guardEnvB (by decide) rfl rfl (by decide)]
  decide

/-! ## Claim C8 -/

/-- C8: in the HTTP popover workaround branch (non-Safari, no modal request,
no native service-worker path), the popover is shown exactly when
auto-registration is explicitly `true` and the popover has not already been
shown this session; and the popover catch handler swallows exactly the
redundant-prompt `InvalidStateError`, `PermissionMessageDismissedError` and
`AlreadySubscribedError`, propagating everything else. -/
theorem sessionInit_http_popover_policy (opts : InitOptions) (env : SessionEnv)
    (s : SdkState)
    (h1 : env.browserSafari = false)
    (h2 : (opts.modalPrompt && opts.fromRegisterFor) = false)
    (h3 : (env.serviceWorkerAvailable && !env.usingSubscriptionWorkaround) = false)
    (h4 : s.sessionInitAlreadyRunning = false) :
    ((Eff.showHttpPrompt ∈ (sessionInit opts env s).2) ↔
      (env.autoRegister = JVal.jbool true ∧ env.httpPromptAlreadyShown = false)) ∧
    (∀ e : PromptError, httpPromptCatchSwallows e = true ↔
      (e = PromptError.invalidState ("RedundantPermissionMessage") ∨
       e = PromptError.permissionMessageDismissed ∨
       e = PromptError.alreadySubscribed)) := by
  constructor
  · simp only [sessionInit, h4, Bool.false_eq_true, if_false, sessionInitDispatch,
      h1, h2, h3, List.mem_cons, List.mem_append]
    by_cases ha : env.autoRegister = JVal.jbool true <;>
      by_cases hs : env.httpPromptAlreadyShown <;>
        simp [ha, hs]
  · intro e
    cases e <;> simp [httpPromptCatchSwallows]

/-- C8 witness: with auto-registration explicitly `true` and no popover
shown yet, the concrete HTTP invocation shows the popover. -/
theorem sessionInit_http_popover_policy_witness :
    Eff.showHttpPrompt ∈
      (sessionInit optsSdk envHttp { sessionInitAlreadyRunning := false }).2 :=
  (sessionInit_http_popover_policy optsSdk envHttp
      { sessionInitAlreadyRunning := false } rfl rfl rfl rfl).1.mpr ⟨rfl, rfl⟩

/-! ## Claim C9 -/

/-- C9: on Safari with no `safari_web_id` configured, a latch-free
`sessionInit` call runs no subscription flow at all — no prompt, no
registration, no popover — yet leaves the latch set and still emits the
terminal `SDK_INITIALIZED` event. -/
theorem sessionInit_safari_no_web_id (opts : InitOptions) (env : SessionEnv)
    (s : SdkState)
    (h1 : env.browserSafari = true)
    (h2 : truthy env.safariWebId = false)
    (h3 : s.sessionInitAlreadyRunning = false) :
    sessionInit opts env s =
      ({ sessionInitAlreadyRunning := true },
       [Eff.logDebug ("called sessionInit"),
        Eff.eventTrigger ("SDK_INITIALIZED")]) := by
  obtain ⟨b⟩ := s
  simp only at h3
  subst h3
  simp [sessionInit, sessionInitDispatch, h1, h2]

/-- C9 witness: the concrete Safari-without-web-id invocation produces only
the terminal event and ends with the latch set. -/
theorem sessionInit_safari_no_web_id_witness :
    truthy envSafariNoId.safariWebId = false ∧
    sessionInit optsSdk envSafariNoId { sessionInitAlreadyRunning := false } =
      ({ sessionInitAlreadyRunning := true },
       [Eff.logDebug ("called sessionInit"),
        Eff.eventTrigger ("SDK_INITIALIZED")]) :=
  ⟨by decide,
   sessionInit_safari_no_web_id optsSdk envSafariNoId
     { sessionInitAlreadyRunning := false } rfl (by decide) rfl⟩

end OneSignalSDK
